import Mathlib

/-!
# Metrix OX7520-3 driver (libsigrok): shallow embedding of `api.c`

The embedding follows `src/hardware/metrix-ox7520-3/api.c`:

* C strings are lists of characters (the bytes before the terminating NUL);
  a receive buffer is the list of the `len` bytes stored in it, and the
  string a C function sees in a buffer stops at the first NUL byte;
* the serial transport is an external collaborator: its answers (result of
  `serial_open`, of `serial_write_blocking`, the line left by
  `serial_readline`) are inputs of `scan`, and every call `scan` makes on it
  is recorded in a log;
* a C array read is an `Option`: reading past the end of a table is the
  fault `Fault.out_of_bounds`.
-/

set_option autoImplicit false

namespace MetrixOX7520

/-! ## C strings and the GLib / libc string helpers used by `scan` -/

/-- Contents of a NUL-terminated C string (the terminator itself is not stored). -/
abbrev CStr := List Char

/-- The NUL byte. -/
def NUL : Char := Char.ofNat 0

/-- The string a C function reads from a buffer: the bytes before the first NUL. -/
def cstr (buf : List Char) : CStr := buf.takeWhile (fun c => c != NUL)

/-- GLib `g_ascii_isspace`: space, `\t`, `\n`, `\f`, `\r` (and nothing else). -/
def g_ascii_isspace (c : Char) : Bool :=
  c == ' ' || c == '\t' || c == '\n' || c == Char.ofNat 12 || c == '\r'

/-- GLib `g_strchug`: removes leading whitespace. -/
def g_strchug (s : CStr) : CStr := s.dropWhile g_ascii_isspace

/-- GLib `g_strchomp`: removes trailing whitespace. -/
def g_strchomp (s : CStr) : CStr := (s.reverse.dropWhile g_ascii_isspace).reverse

/-- GLib `g_strstrip(s)` is `g_strchomp (g_strchug (s))`. -/
def g_strstrip (s : CStr) : CStr := g_strchomp (g_strchug s)

/-- libc `strstr`: `strstr needle hay` is the offset of the first occurrence
of `needle` in `hay` (the C call is `strstr(hay, needle)`), `none` for a NULL
result. -/
def strstr (needle : CStr) : CStr → Option Nat
  | [] => if needle.isPrefixOf [] then some 0 else none
  | c :: t =>
    if needle.isPrefixOf (c :: t) then some 0
    else (strstr needle t).map (fun k => k + 1)

/-- The value `G_MAXINT`. -/
def G_MAXINT : Nat := 2 ^ 31 - 1

/-- The loop `while (--max_tokens && s)` of `g_strsplit`: `s` is the offset of
the next delimiter in `remainder`; returns the tokens cut off and the final
remainder. At loop entry `max_tokens` is at least 1. -/
def g_strsplit_loop (delimiter : CStr) : Nat → CStr → Option Nat → List CStr × CStr
  | 0, remainder, _ => ([], remainder)
  | 1, remainder, _ => ([], remainder)
  | max_tokens + 2, remainder, s =>
    match s with
    | none => ([], remainder)
    | some len =>
      let tok := remainder.take len
      let remainder1 := remainder.drop (len + delimiter.length)
      let r := g_strsplit_loop delimiter (max_tokens + 1) remainder1 (strstr delimiter remainder1)
      (tok :: r.1, r.2)

/-- GLib `g_strsplit(string, delimiter, max_tokens)` for a non-empty
delimiter: at most `max_tokens` pieces, the last one holding the rest of the
string; the empty string splits into the empty vector. The result is the
vector without its terminating NULL. -/
def g_strsplit (string delimiter : CStr) (max_tokens : Int) : List CStr :=
  let max : Nat := if max_tokens < 1 then G_MAXINT else max_tokens.toNat
  let r := match strstr delimiter string with
    | some len => g_strsplit_loop delimiter max string (some len)
    | none => ([], string)
  if string.isEmpty then r.1 else r.1 ++ [r.2]

/-- The three-space field separator of the identification reply. -/
def SEP : CStr := [' ', ' ', ' ']

/-- Lines 126-128 of `scan`: `g_strsplit(buf, "   ", 3)` followed by
`g_strstrip` on every token. -/
def tokenize (s : CStr) : List CStr := (g_strsplit s SEP 3).map g_strstrip

/-- Lines 123-125 of `scan`: if the last byte of the `len`-byte line is a
comma it is overwritten with NUL. The line is not empty here. -/
def strip_trailing_comma (buf : List Char) : List Char :=
  if buf.getLast? = some ',' then buf.set (buf.length - 1) NUL else buf

/-- Lines 123-128 of `scan`: the tokens parsed from the received line. -/
def reply_tokens (buf : List Char) : List CStr :=
  tokenize (cstr (strip_trailing_comma buf))

/-! ## Data model -/

/-- Return codes of `libsigrok.h` used by this driver. -/
inductive SrRet where
  | SR_OK
  | SR_ERR
  | SR_ERR_ARG
  | SR_ERR_NA
  deriving DecidableEq, Repr

/-- The `SR_CONF_*` constants of `libsigrok.h` used by `api.c`. The header is
not part of the driver source, so the values are parameters of the model. -/
structure SrConf where
  SR_CONF_CONN : Nat
  SR_CONF_SERIALCOMM : Nat
  SR_CONF_OSCILLOSCOPE : Nat
  SR_CONF_SAMPLERATE : Nat
  SR_CONF_VDIV : Nat
  SR_CONF_DATA_SOURCE : Nat
  SR_CONF_SCAN_OPTIONS : Nat
  SR_CONF_DEVICE_OPTIONS : Nat
  SR_CONF_GET : Nat
  SR_CONF_SET : Nat
  SR_CONF_LIST : Nat
  deriving DecidableEq, Repr

/-- The `case` labels of the `switch` in `config_list` are pairwise distinct
(C rejects a duplicate label). -/
def SrConf.list_labels_distinct (K : SrConf) : Prop :=
  [K.SR_CONF_SCAN_OPTIONS, K.SR_CONF_DEVICE_OPTIONS, K.SR_CONF_SAMPLERATE,
    K.SR_CONF_DATA_SOURCE].Nodup

instance (K : SrConf) : Decidable K.list_labels_distinct := by
  unfold SrConf.list_labels_distinct
  infer_instance

/-- One scan option (`struct sr_config`): a key and its string value. -/
structure sr_config where
  key : Nat
  data : CStr
  deriving DecidableEq, Repr

/-- Device instance status (`sdi->status`). -/
inductive sr_dev_inst_status where
  | SR_ST_NOT_FOUND
  | SR_ST_INITIALIZING
  | SR_ST_INACTIVE
  | SR_ST_ACTIVE
  | SR_ST_STOPPING
  deriving DecidableEq, Repr

/-- Device instance type (`sdi->inst_type`). -/
inductive sr_dev_inst_type where
  | SR_INST_USB
  | SR_INST_SERIAL
  | SR_INST_SCPI
  deriving DecidableEq, Repr

/-- Channel type. -/
inductive sr_channeltype where
  | SR_CHANNEL_LOGIC
  | SR_CHANNEL_ANALOG
  deriving DecidableEq, Repr

/-- A serial device instance, as created by
`sr_serial_dev_inst_new(port, serialcomm)`. -/
structure sr_serial_dev_inst where
  port : CStr
  serialcomm : CStr
  deriving DecidableEq, Repr

/-- A channel (`struct sr_channel`). -/
structure sr_channel where
  index : Nat
  type : sr_channeltype
  enabled : Bool
  name : CStr
  deriving DecidableEq, Repr

/-- A channel group (`struct sr_channel_group`). -/
structure sr_channel_group where
  name : CStr
  channels : List sr_channel
  deriving DecidableEq, Repr

/-- A device instance (`struct sr_dev_inst`), with the fields `scan` fills in. -/
structure sr_dev_inst where
  status : sr_dev_inst_status
  vendor : CStr
  model : CStr
  version : CStr
  inst_type : sr_dev_inst_type
  conn : sr_serial_dev_inst
  channel_groups : List sr_channel_group
  deriving DecidableEq, Repr

/-! ## The serial transport, seen from `scan` -/

/-- What the serial layer answers to the calls `scan` makes on one serial
device instance. -/
structure SerialStub where
  /-- Result of `serial_open(serial, SERIAL_RDWR)`. -/
  open_ret : SrRet
  /-- Result of `serial_write_blocking(serial, "IDN?", 4, ...)`: the number of
  bytes written, or a negative error code. -/
  write_ret : Int
  /-- The bytes `serial_readline` leaves in `buf`; `len` is their number. -/
  line : List Char
  deriving DecidableEq, Repr

/-- The calls made on the serial device instance. -/
inductive SerialOp where
  | inst_new
  | serial_open
  | write_blocking
  | readline
  | serial_close
  | inst_free
  deriving DecidableEq, Repr

/-- A C array that was read outside its bounds. -/
inductive Table where
  | supported_ox
  | trigger_sources
  deriving DecidableEq, Repr

/-- Undefined behaviour reached by the code. -/
inductive Fault where
  | out_of_bounds (table : Table) (index : Nat)
  deriving DecidableEq, Repr

deriving instance DecidableEq for Except

/-- What `scan` returns, with the log of its calls on the serial instance. -/
structure ScanResult where
  devices : List sr_dev_inst
  ops : List SerialOp
  deriving DecidableEq, Repr

/-! ## Static tables of `api.c` -/

/-- The table `trigger_sources` (lines 25-27). -/
def trigger_sources : List CStr := ["CH1".toList, "CH2".toList, "EXT".toList]

/-- The table `scanopts` (lines 29-32). -/
def scanopts (K : SrConf) : List Nat := [K.SR_CONF_CONN, K.SR_CONF_SERIALCOMM]

/-- The table `drvopts` (lines 34-36). -/
def drvopts (K : SrConf) : List Nat := [K.SR_CONF_OSCILLOSCOPE]

/-- The table `devopts` (lines 38-61); the entries inside comments are not
part of it. -/
def devopts (K : SrConf) : List Nat :=
  [K.SR_CONF_CONN ||| K.SR_CONF_GET,
   K.SR_CONF_SAMPLERATE ||| K.SR_CONF_GET ||| K.SR_CONF_LIST,
   K.SR_CONF_VDIV ||| K.SR_CONF_GET]

/-- The macro `SERIALCOMM` (line 65). -/
def SERIALCOMM : CStr := "9600/8n1/flow=2".toList

/-- The table `supported_ox` (lines 67-71): one entry, and no NULL entry
after it. -/
def supported_ox : List (Option CStr) := [some "OX7520-3".toList]

/-- Modelled from the spec: the macro `NUM_CHANNELS`, defined in `protocol.h`
and not in `api.c`; the spec fixes the number of channels at 3. -/
def NUM_CHANNELS : Nat := 3

/-! ## `scan` -/

/-- Lines 89-99: the loop over the scan options, updating `conn` and
`serialcomm`. -/
def scan_options (K : SrConf) :
    List sr_config → Option CStr × Option CStr → Option CStr × Option CStr
  | [], acc => acc
  | src :: l, (conn, serialcomm) =>
    if src.key = K.SR_CONF_CONN then scan_options K l (some src.data, serialcomm)
    else if src.key = K.SR_CONF_SERIALCOMM then scan_options K l (conn, some src.data)
    else scan_options K l (conn, serialcomm)

/-- Modelled from the spec: `sr_serial_dev_inst_new`, a function of the serial
layer and not of `api.c`; the instance records the address and the serial
parameters. -/
def sr_serial_dev_inst_new (conn serialcomm : CStr) : sr_serial_dev_inst :=
  { port := conn, serialcomm := serialcomm }

/-- Modelled from the spec: `sr_channel_new`, a function of the device layer
and not of `api.c`; a channel has an index, a kind, a name and an enabled
flag. -/
def sr_channel_new (index : Nat) (type : sr_channeltype) (enabled : Bool)
    (name : CStr) : sr_channel :=
  { index := index, type := type, enabled := enabled, name := name }

/-- Modelled from the spec: `std_scan_complete`, a function of the framework
and not of `api.c`; the result set goes to the caller as it is. -/
def std_scan_complete (devices : List sr_dev_inst) : List sr_dev_inst := devices

/-- Lines 145-151: the loop `for (i = 0; i < NUM_CHANNELS; i++)`. The first
argument is the number of iterations left, `NUM_CHANNELS - i`. -/
def scan_channel_groups :
    Nat → Nat → List sr_channel_group → Except Fault (List sr_channel_group)
  | 0, _, channel_groups => .ok channel_groups
  | n + 1, i, channel_groups =>
    match trigger_sources[i]? with
    | none => .error (.out_of_bounds .trigger_sources i)
    | some name =>
      let ch := sr_channel_new i .SR_CHANNEL_ANALOG false name
      let cg : sr_channel_group := { name := name, channels := [] ++ [ch] }
      scan_channel_groups n (i + 1) (channel_groups ++ [cg])

/-- Lines 131-155: the loop `for (i = 0; supported_ox[i]; i++)`. The list
argument is the part of the table from index `i` on; it is empty when `i` is
past the end of the table, and reading `supported_ox[i]` is then out of
bounds. The result is the list `devices`. -/
def scan_supported (tokens0 tokens2 : CStr) (serial : sr_serial_dev_inst) :
    Nat → List (Option CStr) → Except Fault (List sr_dev_inst)
  | i, [] => .error (.out_of_bounds .supported_ox i)
  | _, none :: _ => .ok []
  | i, some ox :: rest =>
    if ox != tokens0 then
      scan_supported tokens0 tokens2 serial (i + 1) rest
    else
      match scan_channel_groups NUM_CHANNELS 0 [] with
      | .error f => .error f
      | .ok channel_groups =>
        .ok ([] ++ [{ status := .SR_ST_INACTIVE
                      vendor := "Metrix".toList
                      model := tokens0
                      version := tokens2
                      inst_type := .SR_INST_SERIAL
                      conn := serial
                      channel_groups := channel_groups }])

/-- Lines 129-156: validation of the tokens and the model lookup. -/
def scan_tokens (tokens : List CStr) (serial : sr_serial_dev_inst) :
    Except Fault (List sr_dev_inst) :=
  match tokens with
  | tokens0 :: tokens1 :: tokens2 :: _ =>
    if "ITT instruments".toList = tokens1 then
      scan_supported tokens0 tokens2 serial 0 supported_ox
    else .ok []
  | _ => .ok []

/-- The function `scan` (lines 73-165). `serial_layer` gives the answers of
the serial layer for the instance `scan` creates. -/
def scan (K : SrConf) (serial_layer : sr_serial_dev_inst → SerialStub)
    (options : List sr_config) : Except Fault ScanResult :=
  match scan_options K options (none, none) with
  | (none, _) => .ok { devices := [], ops := [] }
  | (some conn, serialcomm) =>
    let serialcomm := serialcomm.getD SERIALCOMM
    let serial := sr_serial_dev_inst_new conn serialcomm
    let port := serial_layer serial
    if port.open_ret ≠ .SR_OK then
      .ok { devices := [], ops := [.inst_new, .serial_open] }
    else if port.write_ret < 4 then
      .ok { devices := [], ops := [.inst_new, .serial_open, .write_blocking] }
    else
      let buf := port.line
      let len := buf.length
      if len = 0 then
        .ok { devices := [],
              ops := [.inst_new, .serial_open, .write_blocking, .readline] }
      else
        match scan_tokens (reply_tokens buf) serial with
        | .error f => .error f
        | .ok devices =>
          .ok { devices := std_scan_complete devices,
                ops := [.inst_new, .serial_open, .write_blocking, .readline, .serial_close]
                  ++ (if devices.isEmpty then [.inst_free] else []) }

/-! ## Configuration dispatch -/

/-- The function `config_get` (lines 186-203): the `switch` has only the
`default` label. -/
def config_get (_key : Nat) (_sdi : Option sr_dev_inst)
    (_cg : Option sr_channel_group) : SrRet :=
  .SR_ERR_NA

/-- The function `config_set` (lines 205-222). -/
def config_set (_key : Nat) (_data : CStr) (_sdi : Option sr_dev_inst)
    (_cg : Option sr_channel_group) : SrRet :=
  let ret := SrRet.SR_ERR_NA
  ret

/-- Modelled from the spec: the macro `STD_CONFIG_LIST`, defined by the
framework and not in `api.c`. Per the spec, the scan-options key yields the
ScanOptions table and the device-options key the DeviceOptions table, each
key its own table only, regardless of device state and scope. -/
def STD_CONFIG_LIST (K : SrConf) (key : Nat) (_sdi : Option sr_dev_inst)
    (_cg : Option sr_channel_group) (scanopts _drvopts devopts : List Nat) :
    SrRet × Option (List Nat) :=
  if key = K.SR_CONF_SCAN_OPTIONS then (.SR_OK, some scanopts)
  else if key = K.SR_CONF_DEVICE_OPTIONS then (.SR_OK, some devopts)
  else (.SR_ERR_NA, none)

/-- The function `config_list` (lines 224-241): the return code and the
table stored in `*data`, if any. -/
def config_list (K : SrConf) (key : Nat) (sdi : Option sr_dev_inst)
    (cg : Option sr_channel_group) : SrRet × Option (List Nat) :=
  if key = K.SR_CONF_SCAN_OPTIONS ∨ key = K.SR_CONF_DEVICE_OPTIONS then
    STD_CONFIG_LIST K key sdi cg (scanopts K) (drvopts K) (devopts K)
  else (.SR_ERR_NA, none)

/-! ## Sample inputs -/

/-- A sample assignment of the `SR_CONF_*` constants. -/
def K0 : SrConf :=
  { SR_CONF_CONN := 20000, SR_CONF_SERIALCOMM := 20001, SR_CONF_OSCILLOSCOPE := 10001,
    SR_CONF_SAMPLERATE := 30000, SR_CONF_VDIV := 30013, SR_CONF_DATA_SOURCE := 30029,
    SR_CONF_SCAN_OPTIONS := 2147418112, SR_CONF_DEVICE_OPTIONS := 2147418113,
    SR_CONF_GET := 2147483648, SR_CONF_SET := 1073741824, SR_CONF_LIST := 536870912 }

/-- Scan options naming the port `/dev/ttyS0`. -/
def options0 : List sr_config := [{ key := 20000, data := "/dev/ttyS0".toList }]

/-- A serial layer whose port opens, takes the 4 bytes and answers `line`. -/
def answering (line : List Char) : sr_serial_dev_inst → SerialStub :=
  fun _ => { open_ret := .SR_OK, write_ret := 4, line := line }

/-- The port `scan` talks to: a connection option is present, `serial` is the
instance `scan` creates from the options, the port opens, takes the 4 bytes of
`IDN?` and answers `line`. -/
def Answers (K : SrConf) (serial_layer : sr_serial_dev_inst → SerialStub)
    (options : List sr_config) (serial : sr_serial_dev_inst) (line : List Char) : Prop :=
  (∃ conn serialcomm, scan_options K options (none, none) = (some conn, serialcomm)
      ∧ serial = sr_serial_dev_inst_new conn (serialcomm.getD SERIALCOMM))
    ∧ (serial_layer serial).open_ret = .SR_OK
    ∧ 4 ≤ (serial_layer serial).write_ret
    ∧ (serial_layer serial).line = line

/-- The serial instance of the sample inputs. -/
def serial0 : sr_serial_dev_inst := { port := "/dev/ttyS0".toList, serialcomm := SERIALCOMM }

/-- The device `scan` builds for firmware version `v` on the instance `serial`. -/
def ox_device (serial : sr_serial_dev_inst) (v : CStr) : sr_dev_inst :=
  { status := .SR_ST_INACTIVE
    vendor := "Metrix".toList
    model := "OX7520-3".toList
    version := v
    inst_type := .SR_INST_SERIAL
    conn := serial
    channel_groups :=
      [{ name := "CH1".toList,
         channels := [{ index := 0, type := .SR_CHANNEL_ANALOG, enabled := false,
                        name := "CH1".toList }] },
       { name := "CH2".toList,
         channels := [{ index := 1, type := .SR_CHANNEL_ANALOG, enabled := false,
                        name := "CH2".toList }] },
       { name := "EXT".toList,
         channels := [{ index := 2, type := .SR_CHANNEL_ANALOG, enabled := false,
                        name := "EXT".toList }] }] }

/-- A trimmed token: not empty, and neither its first nor
its last character is whitespace. -/
def Trimmed (t : CStr) : Prop :=
  t ≠ [] ∧ t.head?.all (fun c => !g_ascii_isspace c) = true
    ∧ t.getLast?.all (fun c => !g_ascii_isspace c) = true

instance (t : CStr) : Decidable (Trimmed t) := by
  unfold Trimmed
  infer_instance

/-- The three-space separator does not occur in `t`. -/
def SepFree (t : CStr) : Prop := ¬ (SEP <:+: t)

instance (t : CStr) : Decidable (SepFree t) := by
  unfold SepFree
  infer_instance

/-- The first separator of `a ++ SEP ++ rest` starts right after `a`,
whatever follows. -/
def Blocked (a : CStr) : Prop :=
  ∀ rest : CStr, strstr SEP (a ++ SEP ++ rest) = some a.length

/-- A string of `n` spaces. -/
def spaces (n : Nat) : CStr := List.replicate n ' '

/-- The reply of an OX7520-3 up to the version field. -/
def reply_head : CStr := "OX7520-3   ITT instruments   ".toList

/-! ## Facts about the string helpers -/

theorem cstr_eq_self (l : List Char) (h : NUL ∉ l) : cstr l = l := by
  unfold cstr
  rw [List.takeWhile_eq_self_iff]
  intro c hc
  simp only [bne_iff_ne, ne_eq]
  rintro rfl
  exact h hc

theorem cstr_append_nul (r : List Char) : cstr (r ++ [NUL]) = cstr r := by
  induction r with
  | nil => simp [cstr, List.takeWhile]
  | cons c r ih =>
    simp only [cstr] at ih
    simp only [cstr, List.cons_append, List.takeWhile_cons, ih]

theorem set_last (r : List Char) (c d : Char) : (r ++ [c]).set ((r ++ [c]).length - 1) d = r ++ [d] := by
  induction r with
  | nil => rfl
  | cons x r ih =>
    simp only [List.cons_append, List.length_cons, List.length_append, List.length_nil,
      Nat.add_sub_cancel] at ih ⊢
    simp [List.set_append]

theorem strip_comma_append (r : List Char) : strip_trailing_comma (r ++ [',']) = r ++ [NUL] := by
  unfold strip_trailing_comma
  rw [if_pos (by simp), set_last]
theorem strstr_sep_cons (c : Char) (t : CStr) (h : SEP.isPrefixOf (c :: t) = false) :
    strstr SEP (c :: t) = (strstr SEP t).map (fun k => k + 1) := by
  rw [strstr, h]
  simp

theorem strstr_sep_here (rest : CStr) : strstr SEP (SEP ++ rest) = some 0 := by
  simp [SEP, strstr, List.isPrefixOf]

theorem space_isspace : g_ascii_isspace ' ' = true := by decide

theorem blocked_token (m : CStr) (hne : m ≠ [])
    (hlast : m.getLast?.all (fun c => !g_ascii_isspace c) = true) (hfree : SepFree m) :
    Blocked m := by
  induction m with
  | nil => exact absurd rfl hne
  | cons c m ih =>
    intro rest
    have hpre : SEP.isPrefixOf (c :: m ++ SEP ++ rest) = false := by
      rcases m with _ | ⟨c2, _ | ⟨c3, m3⟩⟩
      · have hc : g_ascii_isspace c = false := by simpa using hlast
        have : c ≠ ' ' := by
          rintro rfl
          simp [space_isspace] at hc
        simp [SEP, List.isPrefixOf, this.symm]
      · have hc : g_ascii_isspace c2 = false := by simpa using hlast
        have : c2 ≠ ' ' := by
          rintro rfl
          simp [space_isspace] at hc
        simp [SEP, List.isPrefixOf, this.symm]
      · by_contra hcon
        apply hfree
        have hp : SEP.isPrefixOf (c :: c2 :: c3 :: m3) = true := by
          simp only [SEP, List.cons_append, List.isPrefixOf, Bool.and_true, Bool.not_eq_false] at hcon ⊢
          exact hcon
        exact (List.isPrefixOf_iff_prefix.mp hp).isInfix
    rw [List.cons_append, List.cons_append, strstr_sep_cons c _ (by simpa using hpre)]
    by_cases hm : m = []
    · subst hm
      simp [strstr_sep_here]
    · have hlast2 : m.getLast?.all (fun c => !g_ascii_isspace c) = true := by
        obtain ⟨c2, m2, rfl⟩ := List.exists_cons_of_ne_nil hm
        rw [List.getLast?_cons_cons] at hlast
        exact hlast
      have hfree2 : SepFree m := by
        intro hin
        exact hfree (List.infix_cons hin)
      rw [ih hm hlast2 hfree2 rest]
      simp

/-- At most two spaces in front of a token that starts with a non-space
character do not make a separator. -/
theorem blocked_padded (k : Nat) (hk : k ≤ 2) (m : CStr) (hm : Trimmed m) (hfree : SepFree m) :
    Blocked (spaces k ++ m) := by
  unfold spaces
  obtain ⟨hne, hhead, hlast⟩ := hm
  have hb := blocked_token m hne hlast hfree
  obtain ⟨c, m1, rfl⟩ := List.exists_cons_of_ne_nil hne
  have hc : g_ascii_isspace c = false := by simpa using hhead
  have hcs : ¬ (' ' = c) := by
    rintro rfl
    simp [space_isspace] at hc
  intro rest
  have h0 := hb rest
  have hk3 : k = 0 ∨ k = 1 ∨ k = 2 := by omega
  rcases hk3 with rfl | rfl | rfl
  · simpa using h0
  · have hp : SEP.isPrefixOf (' ' :: (c :: m1 ++ SEP ++ rest)) = false := by
      simp [SEP, List.isPrefixOf, hcs]
    have e : List.replicate 1 ' ' ++ c :: m1 ++ SEP ++ rest = ' ' :: (c :: m1 ++ SEP ++ rest) := rfl
    rw [e, strstr_sep_cons _ _ hp, h0]
    simp
  · have hp1 : SEP.isPrefixOf (' ' :: (c :: m1 ++ SEP ++ rest)) = false := by
      simp [SEP, List.isPrefixOf, hcs]
    have hp2 : SEP.isPrefixOf (' ' :: ' ' :: (c :: m1 ++ SEP ++ rest)) = false := by
      simp [SEP, List.isPrefixOf, hcs]
    have e : List.replicate 2 ' ' ++ c :: m1 ++ SEP ++ rest
        = ' ' :: ' ' :: (c :: m1 ++ SEP ++ rest) := rfl
    rw [e, strstr_sep_cons _ _ hp2, strstr_sep_cons _ _ hp1, h0]
    simp

/-- Splitting at two separators that are the first ones. -/
theorem g_strsplit_three (a0 a1 rest : CStr) (h0 : Blocked a0) (h1 : Blocked a1) :
    g_strsplit (a0 ++ SEP ++ a1 ++ SEP ++ rest) SEP 3 = [a0, a1, rest] := by
  have e0 : a0 ++ SEP ++ a1 ++ SEP ++ rest = a0 ++ SEP ++ (a1 ++ SEP ++ rest) := by
    simp [List.append_assoc]
  have hs0 : strstr SEP (a0 ++ SEP ++ a1 ++ SEP ++ rest) = some a0.length := by
    rw [e0]
    exact h0 _
  have hlen : SEP.length = 3 := rfl
  have hd0 : (a0 ++ SEP ++ a1 ++ SEP ++ rest).drop (a0.length + 3) = a1 ++ SEP ++ rest := by
    rw [e0, List.append_assoc, ← List.drop_drop, List.drop_left]
    rfl
  have ht0 : (a0 ++ SEP ++ a1 ++ SEP ++ rest).take a0.length = a0 := by
    rw [e0, List.append_assoc, List.take_left]
  have hs1 : strstr SEP (a1 ++ (SEP ++ rest)) = some a1.length := by
    rw [← List.append_assoc]
    exact h1 rest
  have hd1 : (a1 ++ (SEP ++ rest)).drop (a1.length + 3) = rest := by
    rw [← List.drop_drop, List.drop_left]
    rfl
  have ht1 : (a1 ++ (SEP ++ rest)).take a1.length = a1 := by
    rw [List.take_left]
  have hne : (a0 ++ SEP ++ a1 ++ SEP ++ rest).isEmpty = false := by
    cases a0 <;> simp [SEP]
  simp only [g_strsplit, hs0, hne]
  simp [g_strsplit_loop, hlen, hd0, ht0, hs1, hd1, ht1]

/-- Stripping a trimmed token padded with spaces gives the token back. -/
theorem g_strstrip_padded (a b : Nat) (t : CStr) (ht : Trimmed t) :
    g_strstrip (spaces a ++ t ++ spaces b) = t := by
  unfold spaces
  obtain ⟨hne, hhead, hlast⟩ := ht
  have hsp : ∀ (n : Nat), ∀ x ∈ List.replicate n ' ', g_ascii_isspace x = true := by
    intro n x hx
    rw [List.eq_of_mem_replicate hx]
    exact space_isspace
  have hchug : g_strchug (List.replicate a ' ' ++ t ++ List.replicate b ' ')
      = t ++ List.replicate b ' ' := by
    obtain ⟨c, t1, rfl⟩ := List.exists_cons_of_ne_nil hne
    have hc : g_ascii_isspace c = false := by simpa using hhead
    rw [g_strchug, List.append_assoc, List.dropWhile_append_of_pos (hsp a)]
    simp [List.dropWhile_cons, hc]
  have hchomp : g_strchomp (t ++ List.replicate b ' ') = t := by
    rw [g_strchomp, List.reverse_append, List.reverse_replicate,
      List.dropWhile_append_of_pos (hsp b)]
    have hr : t.reverse ≠ [] := by simpa using hne
    obtain ⟨c, t1, hct⟩ := List.exists_cons_of_ne_nil hr
    have hc : g_ascii_isspace c = false := by
      have : t.reverse.head? = some c := by rw [hct]; rfl
      rw [List.head?_reverse] at this
      rw [this] at hlast
      simpa using hlast
    rw [hct, List.dropWhile_cons, hc]
    simp only [Bool.false_eq_true, if_false]
    rw [← hct, List.reverse_reverse]
  rw [g_strstrip, hchug, hchomp]

/-- A line that does not end in a comma is left as it is. -/
theorem strip_comma_of_ne (r : List Char) (h : r.getLast? ≠ some ',') :
    strip_trailing_comma r = r := by
  unfold strip_trailing_comma
  rw [if_neg h]

/-- One trailing comma does not change the tokens. -/
theorem reply_tokens_comma (r : List Char) (h : r.getLast? ≠ some ',') :
    reply_tokens (r ++ [',']) = reply_tokens r := by
  unfold reply_tokens
  rw [strip_comma_append, cstr_append_nul, strip_comma_of_ne r h]

theorem spaces_append_sep (n : Nat) : spaces n ++ SEP = SEP ++ spaces n := by
  have e : SEP = List.replicate 3 ' ' := rfl
  rw [e, spaces, ← List.replicate_add, ← List.replicate_add, Nat.add_comm]

theorem spaces_append_spaces (a b : Nat) : spaces a ++ spaces b = spaces (a + b) := by
  rw [spaces, spaces, spaces, ← List.replicate_add]

/-- The tokens of a reply whose first two fields are padded by at most two
spaces in all, and whose last field is padded by any number of spaces. -/
theorem tokenize_fields (m d v : CStr) (hm : Trimmed m) (hd : Trimmed d) (hv : Trimmed v)
    (hmf : SepFree m) (hdf : SepFree d) (k0 k1 k2 k3 : Nat) (h0 : k0 ≤ 2) (h1 : k1 ≤ 2) :
    tokenize ((spaces k0 ++ m) ++ SEP ++ (spaces k1 ++ d) ++ SEP ++ (spaces k2 ++ v ++ spaces k3))
      = [m, d, v] := by
  rw [tokenize, g_strsplit_three _ _ _ (blocked_padded k0 h0 m hm hmf)
    (blocked_padded k1 h1 d hd hdf)]
  have e0 : spaces k0 ++ m = spaces k0 ++ m ++ spaces 0 := by simp [spaces]
  have e1 : spaces k1 ++ d = spaces k1 ++ d ++ spaces 0 := by simp [spaces]
  simp only [List.map_cons, List.map_nil, g_strstrip_padded k2 k3 v hv]
  rw [e0, e1, g_strstrip_padded k0 0 m hm, g_strstrip_padded k1 0 d hd]

/-- The validation and lookup on the tokens of an OX7520-3. -/
theorem scan_tokens_ox (v : CStr) (serial : sr_serial_dev_inst) :
    scan_tokens ["OX7520-3".toList, "ITT instruments".toList, v] serial
      = .ok [ox_device serial v] := by
  rfl

/-! ## Basic facts about `scan` -/

theorem answers_sample (line : List Char) :
    Answers K0 (answering line) options0 serial0 line :=
  ⟨⟨"/dev/ttyS0".toList, none, by decide, by decide⟩, rfl, le_refl 4, rfl⟩

/-- Once the port has answered a non-empty line, `scan` is decided by the
tokens: it closes the port, and frees the instance when no device was made. -/
theorem scan_of_answers (K : SrConf) (serial_layer : sr_serial_dev_inst → SerialStub)
    (options : List sr_config) (serial : sr_serial_dev_inst) (line : List Char)
    (h : Answers K serial_layer options serial line) (hne : line ≠ []) :
    scan K serial_layer options =
      match scan_tokens (reply_tokens line) serial with
      | .error f => .error f
      | .ok devices =>
        .ok { devices := devices,
              ops := [.inst_new, .serial_open, .write_blocking, .readline, .serial_close]
                ++ (if devices.isEmpty then [.inst_free] else []) } := by
  obtain ⟨⟨conn, serialcomm, hopts, hserial⟩, hopen, hwrite, hline⟩ := h
  subst hserial
  have hlen : line.length ≠ 0 := by
    intro h0
    exact hne (List.length_eq_zero.mp h0)
  simp only [scan, hopts, hopen, hline, std_scan_complete]
  simp [not_lt.mpr hwrite, hlen]

/-- The model lookup on a token equal to the one supported model. -/
theorem scan_supported_match (tokens2 : CStr) (serial : sr_serial_dev_inst) :
    scan_supported "OX7520-3".toList tokens2 serial 0 supported_ox
      = .ok [ox_device serial tokens2] := by
  rfl

/-- The model lookup on any other token reads `supported_ox[1]`. -/
theorem scan_supported_mismatch (tokens0 tokens2 : CStr) (serial : sr_serial_dev_inst)
    (h : tokens0 ≠ "OX7520-3".toList) :
    scan_supported tokens0 tokens2 serial 0 supported_ox
      = .error (.out_of_bounds .supported_ox 1) := by
  have h1 : ("OX7520-3".toList != tokens0) = true := by
    simp only [bne_iff_ne, ne_eq]
    exact fun e => h e.symm
  rw [supported_ox, scan_supported, if_pos h1, scan_supported]


/-- Every device the model lookup produces carries the serial instance. -/
theorem scan_supported_conn (tokens0 tokens2 : CStr) (serial : sr_serial_dev_inst)
    (table : List (Option CStr)) :
    ∀ (i : Nat) (devices : List sr_dev_inst),
      scan_supported tokens0 tokens2 serial i table = .ok devices →
      ∀ d ∈ devices, d.conn = serial := by
  induction table with
  | nil => intro i devices h; simp [scan_supported] at h
  | cons e rest ih =>
    intro i devices h
    cases e with
    | none =>
      simp only [scan_supported, Except.ok.injEq] at h
      subst h
      simp
    | some ox =>
      simp only [scan_supported] at h
      split at h
      · exact ih (i + 1) devices h
      · split at h
        · simp at h
        · simp only [List.nil_append, Except.ok.injEq] at h
          subst h
          simp

/-- Every device made from the tokens carries the serial instance. -/
theorem scan_tokens_conn (tokens : List CStr) (serial : sr_serial_dev_inst)
    (devices : List sr_dev_inst) (h : scan_tokens tokens serial = .ok devices) :
    ∀ d ∈ devices, d.conn = serial := by
  unfold scan_tokens at h
  split at h
  · split at h
    · exact scan_supported_conn _ _ _ _ _ _ h
    · simp only [Except.ok.injEq] at h
      subst h
      simp
  · simp only [Except.ok.injEq] at h
    subst h
    simp

/-- Fewer than three tokens, or a second token that is not the vendor
string: no device, and no table is read. -/
theorem scan_tokens_reject (tokens : List CStr) (serial : sr_serial_dev_inst)
    (h : tokens.length < 3 ∨ tokens[1]? ≠ some "ITT instruments".toList) :
    scan_tokens tokens serial = .ok [] := by
  unfold scan_tokens
  split
  · rename_i tokens0 tokens1 tokens2 rest
    rcases h with h | h
    · simp only [List.length_cons] at h
      omega
    · have h1 : ¬ ("ITT instruments".toList = tokens1) := by
        intro e
        subst e
        exact h rfl
      rw [if_neg h1]
  · rfl

/-- A reply with the wrong number of fields or the wrong vendor string: `scan`
returns no device, closes the port once and frees the instance. -/
theorem scan_rejects_fields (K : SrConf) (serial_layer : sr_serial_dev_inst → SerialStub)
    (options : List sr_config) (serial : sr_serial_dev_inst) (line : List Char)
    (h : Answers K serial_layer options serial line) (hne : line ≠ [])
    (hbad : (reply_tokens line).length < 3
      ∨ (reply_tokens line)[1]? ≠ some "ITT instruments".toList) :
    scan K serial_layer options =
      .ok { devices := [],
            ops := [.inst_new, .serial_open, .write_blocking, .readline, .serial_close,
                    .inst_free] } := by
  rw [scan_of_answers K serial_layer options serial line h hne,
    scan_tokens_reject _ _ hbad]
  rfl

/-- A zero-length line: `scan` returns at line 121, right after the read. -/
theorem scan_of_answers_empty (K : SrConf) (serial_layer : sr_serial_dev_inst → SerialStub)
    (options : List sr_config) (serial : sr_serial_dev_inst)
    (h : Answers K serial_layer options serial []) :
    scan K serial_layer options =
      .ok { devices := [],
            ops := [.inst_new, .serial_open, .write_blocking, .readline] } := by
  obtain ⟨⟨conn, serialcomm, hopts, hserial⟩, hopen, hwrite, hline⟩ := h
  subst hserial
  simp only [scan, hopts, hopen, hline]
  simp [not_lt.mpr hwrite]

/-! ## The configuration dispatch -/

/-- C8: `config_get` and `config_set` return `SR_ERR_NA` for every key, value,
device and channel group, and `config_list` returns `SR_ERR_NA` (and stores no
table) for every key other than the scan-options and the device-options key,
among them `SR_CONF_SAMPLERATE` and `SR_CONF_DATA_SOURCE`; none of them is
`SR_OK`. -/
theorem config_not_applicable (K : SrConf) :
    (∀ (key : Nat) (data : CStr) (sdi : Option sr_dev_inst) (cg : Option sr_channel_group),
        config_get key sdi cg = .SR_ERR_NA ∧ config_set key data sdi cg = .SR_ERR_NA
        ∧ config_get key sdi cg ≠ .SR_OK ∧ config_set key data sdi cg ≠ .SR_OK)
    ∧ (∀ (key : Nat) (sdi : Option sr_dev_inst) (cg : Option sr_channel_group),
        key ≠ K.SR_CONF_SCAN_OPTIONS → key ≠ K.SR_CONF_DEVICE_OPTIONS →
        config_list K key sdi cg = (.SR_ERR_NA, none)
        ∧ (config_list K key sdi cg).1 ≠ .SR_OK)
    ∧ (K.list_labels_distinct →
        ∀ (sdi : Option sr_dev_inst) (cg : Option sr_channel_group),
        config_list K K.SR_CONF_SAMPLERATE sdi cg = (.SR_ERR_NA, none)
        ∧ config_list K K.SR_CONF_DATA_SOURCE sdi cg = (.SR_ERR_NA, none)) := by
  have hlist : ∀ (key : Nat) (sdi : Option sr_dev_inst) (cg : Option sr_channel_group),
      key ≠ K.SR_CONF_SCAN_OPTIONS → key ≠ K.SR_CONF_DEVICE_OPTIONS →
      config_list K key sdi cg = (.SR_ERR_NA, none) := by
    intro key sdi cg h1 h2
    simp [config_list, h1, h2]
  refine ⟨?_, ?_, ?_⟩
  · intro key data sdi cg
    simp [config_get, config_set]
  · intro key sdi cg h1 h2
    rw [hlist key sdi cg h1 h2]
    simp
  · intro hK sdi cg
    simp only [SrConf.list_labels_distinct, List.nodup_cons, List.mem_cons, List.mem_singleton,
      not_or, List.not_mem_nil, not_false_eq_true, List.nodup_nil, and_true] at hK
    obtain ⟨⟨h12, h13, h14⟩, ⟨h23, h24⟩, _⟩ := hK
    exact ⟨hlist _ sdi cg (Ne.symm h13) (Ne.symm h23),
      hlist _ sdi cg (Ne.symm h14) (Ne.symm h24)⟩

/-- Witness for C8 at the sample constants. -/
theorem config_not_applicable_witness :
    K0.list_labels_distinct
    ∧ config_get 30000 none none = .SR_ERR_NA
    ∧ config_set 30000 "1000".toList (some (ox_device serial0 "v1.2".toList)) none = .SR_ERR_NA
    ∧ config_list K0 30013 (some (ox_device serial0 "v1.2".toList)) none = (.SR_ERR_NA, none)
    ∧ config_list K0 K0.SR_CONF_SAMPLERATE (some (ox_device serial0 "v1.2".toList)) none
        = (.SR_ERR_NA, none)
    ∧ config_list K0 K0.SR_CONF_DATA_SOURCE none none = (.SR_ERR_NA, none) :=
  ⟨by decide,
   ((config_not_applicable K0).1 30000 [] none none).1,
   ((config_not_applicable K0).1 30000 "1000".toList _ none).2.1,
   ((config_not_applicable K0).2.1 30013 _ none (by decide) (by decide)).1,
   ((config_not_applicable K0).2.2 (by decide) _ none).1,
   ((config_not_applicable K0).2.2 (by decide) none none).2⟩

/-- C9: with the scan-options key `config_list` returns exactly the table
`[SR_CONF_CONN, SR_CONF_SERIALCOMM]`, with the device-options key exactly the
three entries connection (get), sample rate (get, list), vertical division
(get), whatever the device and the channel group. -/
theorem config_list_tables (K : SrConf)
    (hK : K.SR_CONF_SCAN_OPTIONS ≠ K.SR_CONF_DEVICE_OPTIONS)
    (sdi : Option sr_dev_inst) (cg : Option sr_channel_group) :
    config_list K K.SR_CONF_SCAN_OPTIONS sdi cg
        = (.SR_OK, some [K.SR_CONF_CONN, K.SR_CONF_SERIALCOMM])
    ∧ config_list K K.SR_CONF_DEVICE_OPTIONS sdi cg
        = (.SR_OK, some [K.SR_CONF_CONN ||| K.SR_CONF_GET,
                         K.SR_CONF_SAMPLERATE ||| K.SR_CONF_GET ||| K.SR_CONF_LIST,
                         K.SR_CONF_VDIV ||| K.SR_CONF_GET])
    ∧ config_list K K.SR_CONF_SCAN_OPTIONS sdi cg
        = config_list K K.SR_CONF_SCAN_OPTIONS none none
    ∧ config_list K K.SR_CONF_DEVICE_OPTIONS sdi cg
        = config_list K K.SR_CONF_DEVICE_OPTIONS none none := by
  have h2 : ¬ (K.SR_CONF_DEVICE_OPTIONS = K.SR_CONF_SCAN_OPTIONS) := fun e => hK e.symm
  simp [config_list, STD_CONFIG_LIST, scanopts, devopts, h2]

/-- Witness for C9 at the sample constants and a discovered device. -/
theorem config_list_tables_witness :
    config_list K0 2147418112 (some (ox_device serial0 "v1.2".toList)) none
        = (.SR_OK, some [20000, 20001])
    ∧ config_list K0 2147418113 (some (ox_device serial0 "v1.2".toList)) none
        = (.SR_OK, some [20000 ||| 2147483648, 30000 ||| 2147483648 ||| 536870912,
                         30013 ||| 2147483648]) :=
  ⟨(config_list_tables K0 (by decide) _ none).1, (config_list_tables K0 (by decide) _ none).2.1⟩

/-! ## `scan` and the serial port -/

/-- C2 (an unsupported model token): the reply `OX7520-2   ITT instruments   v1.2`
has three fields and the right vendor string, its model token differs from
the one entry of `supported_ox`, and the lookup loop goes on to read
`supported_ox[1]`, past the end of the table: `scan` does not return an empty
device list there, it runs into undefined behaviour. -/
theorem scan_unsupported_model_reads_past_table :
    scan K0 (answering "OX7520-2   ITT instruments   v1.2".toList) options0
      = .error (.out_of_bounds .supported_ox 1) := by
  decide

/-- C3 (incomplete write, zero-length line): when the port has been opened and
then takes fewer than 4 bytes of `IDN?` or answers a zero-length line, `scan`
returns an empty device list, having opened the port and neither closed it
nor freed the instance. -/
theorem scan_abort_leaves_port_open (K : SrConf)
    (serial_layer : sr_serial_dev_inst → SerialStub) (options : List sr_config)
    (conn : CStr) (serialcomm : Option CStr)
    (hopts : scan_options K options (none, none) = (some conn, serialcomm))
    (hopen : (serial_layer (sr_serial_dev_inst_new conn (serialcomm.getD SERIALCOMM))).open_ret
      = .SR_OK)
    (habort : (serial_layer (sr_serial_dev_inst_new conn (serialcomm.getD SERIALCOMM))).write_ret < 4
      ∨ (serial_layer (sr_serial_dev_inst_new conn (serialcomm.getD SERIALCOMM))).line.length = 0) :
    ∃ ops, scan K serial_layer options = .ok { devices := [], ops := ops }
      ∧ SerialOp.serial_open ∈ ops
      ∧ ops.count .serial_close = 0
      ∧ ops.count .inst_free = 0 := by
  by_cases hw : (serial_layer (sr_serial_dev_inst_new conn (serialcomm.getD SERIALCOMM))).write_ret < 4
  · refine ⟨[.inst_new, .serial_open, .write_blocking], ?_, by decide, by decide, by decide⟩
    simp only [scan, hopts, hopen]
    simp [hw]
  · have hl := habort.resolve_left hw
    refine ⟨[.inst_new, .serial_open, .write_blocking, .readline], ?_, by decide, by decide,
      by decide⟩
    simp only [scan, hopts, hopen]
    simp [hw, hl]

/-- Witness for C3: the port takes 3 of the 4 bytes. -/
theorem scan_abort_leaves_port_open_witness :
    ∃ ops, scan K0 (fun _ => { open_ret := .SR_OK, write_ret := 3, line := [] }) options0
        = .ok { devices := [], ops := ops }
      ∧ SerialOp.serial_open ∈ ops
      ∧ ops.count .serial_close = 0
      ∧ ops.count .inst_free = 0 :=
  scan_abort_leaves_port_open K0 (fun _ => { open_ret := .SR_OK, write_ret := 3, line := [] })
    options0 "/dev/ttyS0".toList none (by decide) rfl (Or.inl (by decide))

/-- C4 (as stated, refuted): on the accepted reply `OX7520-3   ITT instruments   v1.2,`
`scan` returns one device and has called `serial_close` once, not zero times. -/
theorem scan_accepted_closes_port :
    ∃ r, scan K0 (answering "OX7520-3   ITT instruments   v1.2,".toList) options0 = .ok r
      ∧ r.devices.length = 1
      ∧ ¬ (r.ops.count .serial_close = 0) :=
  ⟨{ devices := [ox_device serial0 "v1.2".toList],
     ops := [.inst_new, .serial_open, .write_blocking, .readline, .serial_close] },
   by decide, by decide, by decide⟩

/-- C4 (amended): whenever `scan` returns one device, the serial instance it
created from the options is attached to that device as its connection and
has not been freed, and `scan` has closed the port exactly once (the last
call on it). -/
theorem scan_accepted_keeps_instance (K : SrConf)
    (serial_layer : sr_serial_dev_inst → SerialStub) (options : List sr_config)
    (r : ScanResult) (d : sr_dev_inst)
    (h : scan K serial_layer options = .ok r) (hd : r.devices = [d]) :
    (∃ conn serialcomm, scan_options K options (none, none) = (some conn, serialcomm)
        ∧ d.conn = sr_serial_dev_inst_new conn (serialcomm.getD SERIALCOMM))
    ∧ r.ops = [.inst_new, .serial_open, .write_blocking, .readline, .serial_close]
    ∧ r.ops.count .serial_close = 1
    ∧ r.ops.count .inst_free = 0 := by
  unfold scan at h
  split at h
  · simp only [Except.ok.injEq] at h
    subst h
    simp at hd
  · rename_i conn serialcomm hopts
    simp only at h
    split at h
    · simp only [Except.ok.injEq] at h
      subst h
      simp at hd
    · split at h
      · simp only [Except.ok.injEq] at h
        subst h
        simp at hd
      · split at h
        · simp only [Except.ok.injEq] at h
          subst h
          simp at hd
        · split at h
          · simp at h
          · rename_i devices htok
            simp only [Except.ok.injEq] at h
            subst h
            simp only [std_scan_complete] at hd
            subst hd
            have hconn := scan_tokens_conn _ _ _ htok d (by simp)
            refine ⟨⟨conn, serialcomm, hopts, hconn⟩, ?_, ?_, ?_⟩ <;> simp

/-- Witness for C4 (amended) at the comma-terminated sample reply. -/
theorem scan_accepted_keeps_instance_witness :
    (∃ conn serialcomm, scan_options K0 options0 (none, none) = (some conn, serialcomm)
        ∧ (ox_device serial0 "v1.2".toList).conn
          = sr_serial_dev_inst_new conn (serialcomm.getD SERIALCOMM))
    ∧ ([.inst_new, .serial_open, .write_blocking, .readline, .serial_close] :
        List SerialOp).count .serial_close = 1 :=
  have h := scan_accepted_keeps_instance K0
    (answering "OX7520-3   ITT instruments   v1.2,".toList) options0
    { devices := [ox_device serial0 "v1.2".toList],
      ops := [.inst_new, .serial_open, .write_blocking, .readline, .serial_close] }
    (ox_device serial0 "v1.2".toList) (by decide) rfl
  ⟨h.1, h.2.2.1⟩

/-- C5 (as stated, refuted): the replies `OX7520-3   ITT instruments   ` and
`OX7520-3   ITT instruments   ,`, whose version field is empty, each produce
a device, with the empty version. -/
theorem scan_empty_version_accepted :
    scan K0 (answering "OX7520-3   ITT instruments   ".toList) options0
      = .ok { devices := [ox_device serial0 []],
              ops := [.inst_new, .serial_open, .write_blocking, .readline, .serial_close] }
    ∧ scan K0 (answering "OX7520-3   ITT instruments   ,".toList) options0
      = .ok { devices := [ox_device serial0 []],
              ops := [.inst_new, .serial_open, .write_blocking, .readline, .serial_close] } := by
  decide

/-- C5 (amended): a reply line with fewer than three fields (a missing model,
vendor or version field), or with an empty vendor field, makes `scan` return
an empty device list; the replies `OX7520-3   ITT instruments   ` and
`OX7520-3   ITT instruments   ,`, whose version field is present and empty,
produce one device, whose version is empty. -/
theorem scan_missing_field (K : SrConf) (serial_layer : sr_serial_dev_inst → SerialStub)
    (options : List sr_config) (serial : sr_serial_dev_inst) (line : List Char)
    (h : Answers K serial_layer options serial line) :
    ((reply_tokens line).length < 3 ∨ (reply_tokens line)[1]? = some [] →
        ∃ ops, scan K serial_layer options = .ok { devices := [], ops := ops })
    ∧ (line = "OX7520-3   ITT instruments   ".toList
        ∨ line = "OX7520-3   ITT instruments   ,".toList →
        ∃ ops, scan K serial_layer options
          = .ok { devices := [ox_device serial []], ops := ops }) := by
  constructor
  · intro hbad
    by_cases hne : line = []
    · subst hne
      exact ⟨_, scan_of_answers_empty K serial_layer options serial h⟩
    · refine ⟨_, scan_rejects_fields K serial_layer options serial line h hne ?_⟩
      rcases hbad with hbad | hbad
      · exact Or.inl hbad
      · right
        rw [hbad]
        decide
  · intro hline
    have hne : line ≠ [] := by
      rcases hline with e | e <;> subst e <;> decide
    have htok : reply_tokens line = ["OX7520-3".toList, "ITT instruments".toList, []] := by
      rcases hline with e | e <;> subst e <;> decide
    rw [scan_of_answers K serial_layer options serial line h hne, htok]
    exact ⟨_, rfl⟩

/-- Witness for C5 (amended): the two-field reply `OX7520-3   ITT instruments`. -/
theorem scan_missing_field_witness :
    ∃ ops, scan K0 (answering "OX7520-3   ITT instruments".toList) options0
      = .ok { devices := [], ops := ops } :=
  (scan_missing_field K0 (answering "OX7520-3   ITT instruments".toList) options0 serial0
    "OX7520-3   ITT instruments".toList (answers_sample _)).1 (Or.inl (by decide))

/-- C10 (a model token other than `OX7520-3`): for every reply that passes the
field and vendor validation and whose model token is not `OX7520-3`, the
lookup loop reads `supported_ox[1]`, an index outside the one-entry table. -/
theorem scan_lookup_reads_past_table (K : SrConf)
    (serial_layer : sr_serial_dev_inst → SerialStub) (options : List sr_config)
    (serial : sr_serial_dev_inst) (line : List Char) (model version : CStr)
    (h : Answers K serial_layer options serial line) (hne : line ≠ [])
    (htok : reply_tokens line = [model, "ITT instruments".toList, version])
    (hmodel : model ≠ "OX7520-3".toList) :
    scan K serial_layer options = .error (.out_of_bounds .supported_ox 1)
    ∧ ¬ (1 < supported_ox.length) := by
  rw [scan_of_answers K serial_layer options serial line h hne, htok]
  simp only [scan_tokens, if_true, scan_supported_mismatch model version serial hmodel]
  exact ⟨trivial, by decide⟩

/-- Witness for C10: the reply `OX7520   ITT instruments   v1.0`. -/
theorem scan_lookup_reads_past_table_witness :
    scan K0 (answering "OX7520   ITT instruments   v1.0".toList) options0
      = .error (.out_of_bounds .supported_ox 1) :=
  (scan_lookup_reads_past_table K0 (answering "OX7520   ITT instruments   v1.0".toList)
    options0 serial0 "OX7520   ITT instruments   v1.0".toList "OX7520".toList "v1.0".toList
    (answers_sample _) (by decide) (by decide) (by decide)).1

/-! ## The identification reply -/

/-- C1: for every version token `v` (a C string, so without NUL byte) that is
not empty, has no whitespace at either end and does not end in a comma, when
the port opens, takes the 4 bytes of `IDN?` and answers
`OX7520-3   ITT instruments   ` followed by `v`, with or without one trailing
comma, `scan` returns exactly one device: vendor `Metrix`, model `OX7520-3`,
version `v`, status inactive, and the three channel groups `CH1`, `CH2`,
`EXT` in this order, the i-th holding the one analog, disabled channel of
index i and of the same name. -/
theorem scan_identifies_ox7520_3 (K : SrConf)
    (serial_layer : sr_serial_dev_inst → SerialStub) (options : List sr_config)
    (serial : sr_serial_dev_inst) (line : List Char) (v : CStr)
    (h : Answers K serial_layer options serial line)
    (hv : Trimmed v) (hnul : NUL ∉ v) (hcomma : v.getLast? ≠ some ',')
    (hline : line = reply_head ++ v ∨ line = reply_head ++ v ++ [',']) :
    scan K serial_layer options =
      .ok { devices :=
              [{ status := .SR_ST_INACTIVE
                 vendor := "Metrix".toList
                 model := "OX7520-3".toList
                 version := v
                 inst_type := .SR_INST_SERIAL
                 conn := serial
                 channel_groups :=
                   [{ name := "CH1".toList,
                      channels := [{ index := 0, type := .SR_CHANNEL_ANALOG, enabled := false,
                                     name := "CH1".toList }] },
                    { name := "CH2".toList,
                      channels := [{ index := 1, type := .SR_CHANNEL_ANALOG, enabled := false,
                                     name := "CH2".toList }] },
                    { name := "EXT".toList,
                      channels := [{ index := 2, type := .SR_CHANNEL_ANALOG, enabled := false,
                                     name := "EXT".toList }] }] }],
            ops := [.inst_new, .serial_open, .write_blocking, .readline, .serial_close] } := by
  have hvne : v ≠ [] := hv.1
  have hlast : (reply_head ++ v).getLast? ≠ some ',' := by
    rw [List.getLast?_append_of_ne_nil _ hvne]
    exact hcomma
  have hnul2 : NUL ∉ reply_head ++ v := by
    intro hmem
    rcases List.mem_append.mp hmem with h1 | h1
    · revert h1
      decide
    · exact hnul h1
  have hsplit : reply_head ++ v
      = (spaces 0 ++ "OX7520-3".toList) ++ SEP ++ (spaces 0 ++ "ITT instruments".toList) ++ SEP
        ++ (spaces 0 ++ v ++ spaces 0) := by
    simp [reply_head, spaces, SEP]
  have htok0 : reply_tokens (reply_head ++ v)
      = ["OX7520-3".toList, "ITT instruments".toList, v] := by
    rw [reply_tokens, strip_comma_of_ne _ hlast, cstr_eq_self _ hnul2, hsplit]
    exact tokenize_fields _ _ v (by decide) (by decide) hv (by decide) (by decide) 0 0 0 0
      (by decide) (by decide)
  have htok : reply_tokens line = ["OX7520-3".toList, "ITT instruments".toList, v] := by
    rcases hline with e | e
    · rw [e, htok0]
    · rw [e, reply_tokens_comma _ hlast, htok0]
  have hne : line ≠ [] := by
    rcases hline with e | e <;> subst e <;> simp [hvne]
  rw [scan_of_answers K serial_layer options serial line h hne, htok, scan_tokens_ox]
  rfl

/-- Witness for C1: the reply `OX7520-3   ITT instruments   v1.2,` gives one
device of version `v1.2`. -/
theorem scan_identifies_ox7520_3_witness :
    scan K0 (answering "OX7520-3   ITT instruments   v1.2,".toList) options0
      = .ok { devices := [ox_device serial0 "v1.2".toList],
              ops := [.inst_new, .serial_open, .write_blocking, .readline, .serial_close] } :=
  scan_identifies_ox7520_3 K0 (answering "OX7520-3   ITT instruments   v1.2,".toList) options0
    serial0 "OX7520-3   ITT instruments   v1.2,".toList "v1.2".toList (answers_sample _)
    (by decide) (by decide) (by decide) (Or.inr (by decide))

/-- C6 (as stated, refuted): the tokens `OX7520-3`, `ITT instruments`, `v1.2`
are not empty, have no whitespace at either end and do not contain the
separator; three spaces in front of the model token are taken for the first
separator, and the tokens parsed are not `m`, `d`, `v`. -/
theorem tokenize_leading_spaces :
    (Trimmed "OX7520-3".toList ∧ Trimmed "ITT instruments".toList ∧ Trimmed "v1.2".toList)
    ∧ (SepFree "OX7520-3".toList ∧ SepFree "ITT instruments".toList ∧ SepFree "v1.2".toList)
    ∧ tokenize (spaces 3 ++ "OX7520-3".toList ++ spaces 0 ++ SEP ++ spaces 0
        ++ "ITT instruments".toList ++ spaces 0 ++ SEP ++ spaces 0 ++ "v1.2".toList ++ spaces 0)
      = [[], "OX7520-3".toList, "ITT instruments   v1.2".toList]
    ∧ tokenize (spaces 3 ++ "OX7520-3".toList ++ spaces 0 ++ SEP ++ spaces 0
        ++ "ITT instruments".toList ++ spaces 0 ++ SEP ++ spaces 0 ++ "v1.2".toList ++ spaces 0)
      ≠ ["OX7520-3".toList, "ITT instruments".toList, "v1.2".toList] := by
  decide

/-- C6 (amended): for tokens `m`, `d`, `v` that are not empty, have no
whitespace at either end and do not contain the separator, and strings of
spaces `p0` .. `p5` with `p0` of length at most 2 and `p1`, `p2` of total
length at most 2 (`p3`, `p4`, `p5` of any length), tokenising
`p0 m p1 SEP p2 d p3 SEP p4 v p5` gives exactly `m`, `d`, `v`, the tokens
of the unpadded reply `m SEP d SEP v`. -/
theorem tokenize_padded (m d v : CStr) (hm : Trimmed m) (hd : Trimmed d) (hv : Trimmed v)
    (hmf : SepFree m) (hdf : SepFree d) (_hvf : SepFree v)
    (n0 n1 n2 n3 n4 n5 : Nat) (h0 : n0 ≤ 2) (h12 : n1 + n2 ≤ 2) :
    tokenize (spaces n0 ++ m ++ spaces n1 ++ SEP ++ spaces n2 ++ d ++ spaces n3 ++ SEP
        ++ spaces n4 ++ v ++ spaces n5) = [m, d, v]
    ∧ tokenize (m ++ SEP ++ d ++ SEP ++ v) = [m, d, v] := by
  constructor
  · have e : spaces n0 ++ m ++ spaces n1 ++ SEP ++ spaces n2 ++ d ++ spaces n3 ++ SEP
          ++ spaces n4 ++ v ++ spaces n5
        = (spaces n0 ++ m) ++ SEP ++ (spaces (n1 + n2) ++ d) ++ SEP
          ++ (spaces (n3 + n4) ++ v ++ spaces n5) := by
      have e1 : ∀ (x : CStr), spaces n1 ++ (SEP ++ (spaces n2 ++ x))
          = SEP ++ (spaces (n1 + n2) ++ x) := by
        intro x
        rw [← List.append_assoc, spaces_append_sep, List.append_assoc, ← List.append_assoc
          (spaces n1), spaces_append_spaces]
      have e2 : ∀ (x : CStr), spaces n3 ++ (SEP ++ (spaces n4 ++ x))
          = SEP ++ (spaces (n3 + n4) ++ x) := by
        intro x
        rw [← List.append_assoc, spaces_append_sep, List.append_assoc, ← List.append_assoc
          (spaces n3), spaces_append_spaces]
      simp only [List.append_assoc, e1, e2]
    rw [e]
    exact tokenize_fields m d v hm hd hv hmf hdf n0 (n1 + n2) (n3 + n4) n5 h0 h12
  · have e : m ++ SEP ++ d ++ SEP ++ v
        = (spaces 0 ++ m) ++ SEP ++ (spaces 0 ++ d) ++ SEP ++ (spaces 0 ++ v ++ spaces 0) := by
      simp [spaces]
    rw [e]
    exact tokenize_fields m d v hm hd hv hmf hdf 0 0 0 0 (by decide) (by decide)

/-- Witness for C6 (amended): two spaces in front, one on each side of the
first separator, and four, five and six around the version. -/
theorem tokenize_padded_witness :
    tokenize (spaces 2 ++ "OX7520-3".toList ++ spaces 1 ++ SEP ++ spaces 1
        ++ "ITT instruments".toList ++ spaces 4 ++ SEP ++ spaces 5 ++ "v1.2".toList ++ spaces 6)
      = ["OX7520-3".toList, "ITT instruments".toList, "v1.2".toList] :=
  (tokenize_padded "OX7520-3".toList "ITT instruments".toList "v1.2".toList
    (by decide) (by decide) (by decide) (by decide) (by decide) (by decide)
    2 1 1 4 5 6 (by decide) (by decide)).1

/-- C7: for every non-empty reply line `r` that does not end in a comma, the
tokens parsed from `r` followed by a comma are the tokens parsed from `r`,
and `scan` returns the same result (devices, calls on the port, or fault)
for both replies. -/
theorem trailing_comma_same_scan (K : SrConf)
    (serial_layer : sr_serial_dev_inst → SerialStub) (options : List sr_config)
    (r : List Char) (hne : r ≠ []) (hlast : r.getLast? ≠ some ',') :
    reply_tokens (r ++ [',']) = reply_tokens r
    ∧ scan K (fun serial => { serial_layer serial with line := r ++ [','] }) options
      = scan K (fun serial => { serial_layer serial with line := r }) options := by
  have ht := reply_tokens_comma r hlast
  refine ⟨ht, ?_⟩
  have h2 : r.length ≠ 0 := fun e => hne (List.length_eq_zero.mp e)
  simp only [scan, ht, List.length_append, List.length_singleton, Nat.add_one_ne_zero, h2,
    if_false]

/-- Witness for C7: the reply `OX7520-3   ITT instruments   v1.2`. -/
theorem trailing_comma_same_scan_witness :
    reply_tokens ("OX7520-3   ITT instruments   v1.2".toList ++ [','])
      = reply_tokens "OX7520-3   ITT instruments   v1.2".toList
    ∧ scan K0 (fun serial => { answering [] serial with
          line := "OX7520-3   ITT instruments   v1.2".toList ++ [','] }) options0
      = scan K0 (fun serial => { answering [] serial with
          line := "OX7520-3   ITT instruments   v1.2".toList }) options0 :=
  trailing_comma_same_scan K0 (answering []) options0
    "OX7520-3   ITT instruments   v1.2".toList (by decide) (by decide)

end MetrixOX7520
